import Mathlib

/-!
Verification of the decision scoring engine of the stock dashboard in app.py.

The embedding models, over exact rational arithmetic:
  - the technical indicator layer of get_stock_data (app.py lines 86 to 114),
    including the semantics of the pandas rolling windows and of the calls into
    the ta indicator library (stochastic oscillator, RSI, ATR, OBV, MFI), and
    the final dropna step;
  - the post-fetch length guards of get_stock_data (lines 61 to 73);
  - the industry classifier detect_industry_type (lines 142 to 161);
  - the analysis function analyze_logic (lines 166 to 266).

Float arithmetic of the source is embedded as exact arithmetic over the
rationals.  The only divergences are at non-finite float values: a pandas
division of a nonzero numerator by zero yields an IEEE infinity, which has no
rational counterpart; such points are noted at the relevant definitions and no
theorem below depends on them.
-/

namespace StockApp

/-! ## String helpers (python substring and lower-case tests) -/

/-- Lower-casing of a string, modelling the python str.lower call on the
ASCII metadata text used by detect_industry_type. -/
def lowerStr (s : String) : String := ⟨s.data.map Char.toLower⟩

/-- Boolean test that the first list is an initial segment of the second. -/
def startsWithList : List Char → List Char → Bool
  | [], _ => true
  | _ :: _, [] => false
  | a :: as, b :: bs => a = b && startsWithList as bs

/-- Boolean test that the first list occurs as a contiguous sublist of the
second, modelling the python substring operator. -/
def hasSubList : List Char → List Char → Bool
  | needle, [] => needle.isEmpty
  | needle, b :: bs => startsWithList needle (b :: bs) || hasSubList needle bs

/-- The python test needle in hay on strings. -/
def strContains (hay needle : String) : Bool := hasSubList needle.data hay.data

/-! ## Bars and small list helpers -/

/-- One daily OHLCV bar of the fetched dataframe (after the ffill and bfill
cleaning of line 77, so every field is a definite number).  The open price is
omitted: no indicator or scoring rule of the source reads it. -/
structure Bar where
  high : ℚ
  low : ℚ
  close : ℚ
  volume : ℚ
deriving DecidableEq

instance : Inhabited Bar := ⟨⟨0, 0, 0, 0⟩⟩

/-- Maximum of a list of rationals, as the pandas max over a window; the
empty case never arises under the length guards of the callers. -/
def maxListQ : List ℚ → ℚ
  | [] => 0
  | x :: xs => xs.foldl max x

/-- Minimum of a list of rationals. -/
def minListQ : List ℚ → ℚ
  | [] => 0
  | x :: xs => xs.foldl min x

/-- The last w elements of a list: the content of a rolling window ending at
the last element. -/
def lastWindow (w : ℕ) (l : List α) : List α := l.drop (l.length - w)

/-! ## Indicator layer (app.py lines 86 to 111)

Every indicator is defined as the value of the corresponding dataframe column
at index i, computed from the prefix of the first i+1 bars, exactly as the
pandas rolling and cumulative operations do.  A value is an Option: none is
the NaN of the float dataframe at that index. -/

/-- Rolling mean of the closes over the last w bars of a prefix; none when
fewer than w bars are available (pandas rolling mean, min_periods = w). -/
def rollingMeanLast (w : ℕ) (p : List Bar) : Option ℚ :=
  if p.length < w then none
  else some (((lastWindow w p).map Bar.close).sum / (w : ℚ))

/-- Column MA20 at index i (line 86). -/
def MA20 (l : List Bar) (i : ℕ) : Option ℚ := rollingMeanLast 20 (l.take (i+1))

/-- Column MA60 at index i (line 87). -/
def MA60 (l : List Bar) (i : ℕ) : Option ℚ := rollingMeanLast 60 (l.take (i+1))

/-- Bias of the last close from the 20 bar mean, times 100 (line 90).  At a
zero mean with a nonzero numerator the float source produces an infinity,
which the rational embedding cannot represent; no theorem below evaluates
this definition at a zero mean. -/
def biasLast (p : List Bar) : Option ℚ :=
  match p.getLast?, rollingMeanLast 20 p with
  | some b, some m => some ((b.close - m) / m * 100)
  | _, _ => none

/-- Column Bias at index i (line 90). -/
def Bias (l : List Bar) (i : ℕ) : Option ℚ := biasLast (l.take (i+1))

/-- Stochastic oscillator of the ta library at the last index of a prefix:
100 * (close - min low 9) / (max high 9 - min low 9), none before 9 bars and
none at a degenerate window, where the float division 0/0 yields NaN
(line 95 to 96). -/
def stochLast (p : List Bar) : Option ℚ :=
  if p.length < 9 then none
  else
    match p.getLast? with
    | none => none
    | some b =>
      let w := lastWindow 9 p
      let hi := maxListQ (w.map Bar.high)
      let lo := minListQ (w.map Bar.low)
      if hi - lo = 0 then none else some (100 * (b.close - lo) / (hi - lo))

/-- Column K at index i (line 96). -/
def K (l : List Bar) (i : ℕ) : Option ℚ := stochLast (l.take (i+1))

/-- Successive close differences with a leading zero entry: the ta library
replaces the undefined first difference by 0.0 before smoothing. -/
def diffsAux (prev : Bar) : List Bar → List ℚ
  | [] => []
  | b :: rest => (b.close - prev.close) :: diffsAux b rest

/-- Close differences of a whole prefix, first entry 0. -/
def diffsList : List Bar → List ℚ
  | [] => []
  | b :: rest => 0 :: diffsAux b rest

/-- Exponentially weighted mean with alpha = 1/w, adjust false (the Wilder
smoothing used by the ta RSI): the value at the last index of the list. -/
def ewmWilder (w : ℚ) : List ℚ → ℚ
  | [] => 0
  | x :: xs => xs.foldl (fun acc y => ((w - 1) * acc + y) / w) x

/-- RSI of the ta library at the last index of a prefix, window 14: smoothed
mean of the upward and of the downward moves; when the downward mean is zero
the library substitutes 100 (line 98). -/
def rsiLast (p : List Bar) : Option ℚ :=
  if p.length < 14 then none
  else
    let ds := diffsList p
    let eu := ewmWilder 14 (ds.map (fun d => max d 0))
    let ed := ewmWilder 14 (ds.map (fun d => max (-d) 0))
    if ed = 0 then some 100 else some (100 - 100 / (1 + eu / ed))

/-- Column RSI at index i (line 98). -/
def RSI (l : List Bar) (i : ℕ) : Option ℚ := rsiLast (l.take (i+1))

/-- True ranges after the first bar: max of high-low, distance of high and of
low from the previous close. -/
def trAux (prev : Bar) : List Bar → List ℚ
  | [] => []
  | b :: rest =>
    max (b.high - b.low) (max |b.high - prev.close| |b.low - prev.close|) :: trAux b rest

/-- True range list of a prefix; the first entry is high-low, as the pandas
row max skips the NaN of the shifted close. -/
def trList : List Bar → List ℚ
  | [] => []
  | b :: rest => (b.high - b.low) :: trAux b rest

/-- ATR of the ta library at the last index of a prefix, window 14: zero
before 14 bars (the library preallocates with zeros, not NaN), then the mean
of the first 14 true ranges followed by the Wilder recursion (line 99). -/
def atrLast (p : List Bar) : ℚ :=
  if p.length < 14 then 0
  else
    let ts := trList p
    (ts.drop 14).foldl (fun acc t => (acc * 13 + t) / 14) (((ts.take 14).sum) / 14)

/-- Column ATR at index i (line 99). -/
def ATR (l : List Bar) (i : ℕ) : ℚ := atrLast (l.take (i+1))

/-- Signed volumes after the first bar: negative on a close strictly below
the previous close, positive otherwise. -/
def svAux (prev : Bar) : List Bar → List ℚ
  | [] => []
  | b :: rest => (if b.close < prev.close then -b.volume else b.volume) :: svAux b rest

/-- Signed volume list of a prefix; the first entry is the plain volume. -/
def signedVols : List Bar → List ℚ
  | [] => []
  | b :: rest => b.volume :: svAux b rest

/-- OBV at the last index of a prefix: cumulative sum of signed volumes
(line 100). -/
def obvLast (p : List Bar) : ℚ := (signedVols p).sum

/-- Column OBV at index i (line 100). -/
def OBV (l : List Bar) (i : ℕ) : ℚ := obvLast (l.take (i+1))

/-- Typical price of a bar. -/
def typ (b : Bar) : ℚ := (b.high + b.low + b.close) / 3

/-- Raw money flow entries after the first bar: typical price times volume,
signed by the direction of the typical price move, zero on a flat move. -/
def mfrAux (prev : Bar) : List Bar → List ℚ
  | [] => []
  | b :: rest =>
    (if typ prev < typ b then typ b * b.volume
     else if typ b < typ prev then -(typ b * b.volume) else 0) :: mfrAux b rest

/-- Raw money flow list of a prefix, first entry 0. -/
def mfrList : List Bar → List ℚ
  | [] => []
  | b :: rest => 0 :: mfrAux b rest

/-- MFI of the ta library at the last index of a prefix, window 14: positive
flow over total flow, scaled to 100; none before 14 bars and none when the
window has no flow at all, where the float division 0/0 yields NaN
(line 101). -/
def mfiLast (p : List Bar) : Option ℚ :=
  if p.length < 14 then none
  else
    let w := lastWindow 14 (mfrList p)
    let pos := (w.map (fun x => if 0 ≤ x then x else 0)).sum
    let neg := (w.map (fun x => if x < 0 then -x else 0)).sum
    if pos + neg = 0 then none else some (100 * pos / (pos + neg))

/-- Column MFI at index i (line 101). -/
def MFI (l : List Bar) (i : ℕ) : Option ℚ := mfiLast (l.take (i+1))

/-- Rolling 500 bar high of a prefix, min_periods 1 (line 106). -/
def hi2yLast (p : List Bar) : ℚ := maxListQ ((lastWindow 500 p).map Bar.high)

/-- Rolling 500 bar low of a prefix, min_periods 1 (line 107). -/
def lo2yLast (p : List Bar) : ℚ := minListQ ((lastWindow 500 p).map Bar.low)

/-- Column 2Y_High at index i (line 106). -/
def High2Y (l : List Bar) (i : ℕ) : ℚ := hi2yLast (l.take (i+1))

/-- Column 2Y_Low at index i (line 107). -/
def Low2Y (l : List Bar) (i : ℕ) : ℚ := lo2yLast (l.take (i+1))

/-- Price position at the last index of a prefix (lines 110 to 111): the
np.where guard substitutes 0.5 when the window high equals the window low,
else (close - low) / (high - low); none only past the end of the series. -/
def pricePosLast (p : List Bar) : Option ℚ :=
  match p.getLast? with
  | none => none
  | some b =>
    if hi2yLast p - lo2yLast p = 0 then some (1/2)
    else some ((b.close - lo2yLast p) / (hi2yLast p - lo2yLast p))

/-- Column Price_Pos at index i (line 111). -/
def Price_Pos (l : List Bar) (i : ℕ) : Option ℚ := pricePosLast (l.take (i+1))

/-! ## Dataframe rows and the dropna step (line 114) -/

/-- One row of the dataframe handed to analyze_logic: the columns that the
analysis reads.  The raw columns never hold NaN after the cleaning of
line 77, and the remaining derived columns 2Y_High and 2Y_Low are total, so
they play no role in the dropna filter and are omitted from the record. -/
structure Row where
  close : ℚ
  high : ℚ
  ma20 : ℚ
  ma60 : ℚ
  bias : ℚ
  k : ℚ
  rsi : ℚ
  atr : ℚ
  obv : ℚ
  mfi : ℚ
  price_pos : ℚ
deriving DecidableEq

instance : Inhabited Row := ⟨⟨0, 0, 0, 0, 0, 0, 0, 0, 0, 0, 0⟩⟩

/-- Row i of the raw indicator dataframe, defined exactly when every column
is defined at i. -/
def rawRow (l : List Bar) (i : ℕ) : Option Row := do
  let b ← l[i]?
  let m20 ← MA20 l i
  let m60 ← MA60 l i
  let bi ← Bias l i
  let kk ← K l i
  let rs ← RSI l i
  let mf ← MFI l i
  let pp ← Price_Pos l i
  pure ⟨b.close, b.high, m20, m60, bi, kk, rs, ATR l i, OBV l i, mf, pp⟩

/-- The dataframe returned by get_stock_data: all rows whose columns are all
defined, in index order (the dropna of line 114). -/
def computeFrame (l : List Bar) : List Row :=
  (List.range l.length).filterMap (rawRow l)

/-- Outcome of the post-fetch processing of get_stock_data: the empty fetch
returns a bare None triple (line 68), a fetch shorter than 60 bars returns
the Data_Too_Short marker with no dataframe (lines 72 to 73), and otherwise
the indicator dataframe is produced. -/
inductive FetchOutcome where
  | noData : FetchOutcome
  | dataTooShort : FetchOutcome
  | ok : List Row → FetchOutcome
deriving DecidableEq

/-- Post-fetch processing of get_stock_data on the bars delivered by the
data provider (lines 61 to 116); the network fetch itself is outside the
model. -/
def get_stock_data_model (bars : List Bar) : FetchOutcome :=
  if bars.isEmpty then FetchOutcome.noData
  else if bars.length < 60 then FetchOutcome.dataTooShort
  else FetchOutcome.ok (computeFrame bars)

/-! ## Industry classifier (app.py lines 142 to 161) -/

/-- Reference metadata of a security as read by detect_industry_type; a
missing dictionary key reads as the empty string via info.get.  A falsy info
dictionary is modelled by the none case of the Option argument below. -/
structure Info where
  sector : String
  industry : String
  longBusinessSummary : String
  shortName : String
deriving DecidableEq

/-- The fixed cyclical keyword list of line 152. -/
def cycle_keywords : List String :=
  ["Semiconductors", "Memory", "DRAM", "Flash", "Marine", "Shipping", "Freight",
   "Transport", "Steel", "Iron", "Metal", "Chemical", "Oil", "Panel", "Display", "LCD"]

/-- First keyword whose lower-cased text occurs in the given lower-cased
text, as the for loops of lines 155 to 160. -/
def firstKeyword (text : String) : Option String :=
  cycle_keywords.find? (fun kw => strContains text (lowerStr kw))

/-- The classifier detect_industry_type (lines 142 to 161): a falsy info
returns None; a nonempty short name containing ETF or Dividend returns ETF;
else the first cyclical keyword found in the lower-cased sector plus
industry text, else in the lower-cased business summary; else None. -/
def detect_industry_type (info : Option Info) : Option String :=
  match info with
  | none => none
  | some i =>
    if !(i.shortName.isEmpty) && (strContains i.shortName "ETF" || strContains i.shortName "Dividend") then
      some "ETF"
    else
      match firstKeyword (lowerStr (i.sector ++ " " ++ i.industry)) with
      | some kw => some kw
      | none => firstKeyword (lowerStr i.longBusinessSummary)

/-! ## The analysis function (app.py lines 166 to 266) -/

/-- The report dictionary returned by analyze_logic. -/
structure Report where
  score : ℤ
  action : String
  details : List (String × String)
  atr_stop_price : ℚ
  trailing_stop_price : ℚ
  obv_trend : String
  price_pos : ℚ
deriving DecidableEq

/-- The early report of lines 168 to 172 for a dataframe shorter than 5
rows. -/
def insufficientReport : Report :=
  { score := 50, action := "資料不足",
    details := [("錯誤", "歷史資料過短，無法分析。")],
    atr_stop_price := 0, trailing_stop_price := 0, obv_trend := "未知",
    price_pos := 1/2 }

/-- Row read by iloc with index -1. -/
def rowAt (df : List Row) (i : ℕ) : Row := df.getD i default

/-- The OBV trend label of lines 194 to 195. -/
def obvTrendLabel (last prev5 : Row) : String :=
  if last.obv - prev5.obv > 0 then "📈 流入"
  else if last.obv - prev5.obv < 0 then "📉 流出" else "持平"

/-- Score after the bias rule (lines 198 to 203) and the two chip divergence
rules (lines 206 to 211), starting from the base 50 of line 189. -/
def baseScore (last prev5 : Row) (strategy_mode : String) : ℤ :=
  50 + (if last.bias > 10 then 15
        else if last.bias < -10 ∧ strategy_mode = "Cycle" then -10 else 0)
     + (if last.close - prev5.close ≥ 0 ∧ last.obv - prev5.obv < 0 then 20 else 0)
     + (if last.close - prev5.close ≤ 0 ∧ last.obv - prev5.obv > 0 then -15 else 0)

/-- Details appended by the bias and chip rules, in source order. -/
def baseDetails (last prev5 : Row) (strategy_mode : String) : List (String × String) :=
  (if last.bias > 10 then [("[風險] 乖離率過大", "漲太兇，易回檔。")]
   else if last.bias < -10 ∧ strategy_mode = "Cycle" then [("[機會] 負乖離過大", "跌深，易反彈。")]
   else [])
  ++ (if last.close - prev5.close ≥ 0 ∧ last.obv - prev5.obv < 0 then
        [("[籌碼背離] 主力偷賣", "股價沒跌但大戶在跑。")] else [])
  ++ (if last.close - prev5.close ≤ 0 ∧ last.obv - prev5.obv > 0 then
        [("[籌碼背離] 主力偷買", "股價在跌但大戶在撿。")] else [])

/-- Additive technical checks of the Trend branch (lines 214 to 226).  The
ATR breach check of line 221 compares the current close against the stop
current close minus two ATR computed from the same row. -/
def trendScore (base : ℤ) (last : Row) : ℤ :=
  base + (if last.close < last.ma20 then 20 else 0)
       + (if last.close < last.ma60 then 30 else 0)
       + (if last.close < last.close - 2 * last.atr then 40 else 0)
       + (if last.rsi > 80 ∨ last.mfi > 80 then 10 else 0)

/-- Details of the Trend branch, in source order. -/
def trendDetails (last : Row) : List (String × String) :=
  (if last.close < last.ma20 then [("[警告] 跌破月線", "短線轉弱。")] else [])
  ++ (if last.close < last.ma60 then [("[危險] 跌破季線", "中線轉空。")] else [])
  ++ (if last.close < last.close - 2 * last.atr then [("[賣出] 跌破 ATR", "趨勢反轉。")] else [])
  ++ (if last.rsi > 80 ∨ last.mfi > 80 then [("[風險] 指標過熱", "市場太嗨。")] else [])

/-- Score of the Cycle branch (lines 228 to 244): the price position tier
overwrites the accumulated score by assignment, then the oscillator rule
subtracts 10. -/
def cycleScore (last : Row) : ℤ :=
  (if last.price_pos < 1/5 then 10 else if last.price_pos > 4/5 then 70 else 40)
  + (if last.k < 20 then -10 else 0)

/-- Action label of the Cycle branch: 觀察 from line 229 unless a tier
reassigns it. -/
def cycleAction (last : Row) : String :=
  if last.price_pos < 1/5 then "佈局 (低基期)"
  else if last.price_pos > 4/5 then "觀察" else "續抱/觀望"

/-- Details of the Cycle branch, in source order. -/
def cycleDetails (last : Row) : List (String × String) :=
  (if last.price_pos < 1/5 then
     [("[機會] 處於歷史低檔", "股價在過去兩年的底部區域 (位階 < 20%)，相對安全。")]
   else if last.price_pos > 4/5 then
     [("[注意] 處於歷史高檔", "股價接近過去兩年高點 (位階 > 80%)，風險較高。")]
   else [("[中性] 位階適中", "股價處於中間區域。")])
  ++ (if last.k < 20 then [("[訊號] KD低檔", "嚴重超賣。")] else [])

/-- Branch dispatch on the strategy mode string (lines 214 and 228). -/
def branchScore (last prev5 : Row) (strategy_mode : String) : ℤ :=
  if strategy_mode = "Trend" then trendScore (baseScore last prev5 strategy_mode) last
  else if strategy_mode = "Cycle" then cycleScore last
  else baseScore last prev5 strategy_mode

/-- Action label after the branch: only the Cycle branch ever reassigns the
default of line 189. -/
def branchAction (strategy_mode : String) (last : Row) : String :=
  if strategy_mode = "Cycle" then cycleAction last else "觀望 / 持有"

/-- Details after the branch. -/
def branchDetails (last prev5 : Row) (strategy_mode : String) : List (String × String) :=
  baseDetails last prev5 strategy_mode
  ++ (if strategy_mode = "Trend" then trendDetails last
      else if strategy_mode = "Cycle" then cycleDetails last else [])

/-- The user stop price of line 248. -/
def user_stop_price (buy_price stop_loss_pct : ℚ) : ℚ :=
  buy_price * (1 - stop_loss_pct / 100)

/-- The recent high of lines 255 to 258: the high over the trailing window,
raised to the buy price when the buy price exceeds it. -/
def recentHigh (buy_price : ℚ) (highsTail : List ℚ) : ℚ :=
  if buy_price > maxListQ highsTail then buy_price else maxListQ highsTail

/-- Score after the stop rules of lines 247 to 263: when a position is held,
a close at or under the user stop assigns 100, and with trailing enabled a
close under ninety percent of the recent high assigns 100. -/
def stoppedScore (s : ℤ) (last : Row) (buy_price stop_loss_pct : ℚ)
    (use_trailing : Bool) (highsTail : List ℚ) : ℤ :=
  if buy_price > 0 then
    let u := if last.close ≤ user_stop_price buy_price stop_loss_pct then 100 else s
    if use_trailing then
      if last.close < recentHigh buy_price highsTail * (9/10) then 100 else u
    else u
  else s

/-- The trailing stop price reported by lines 253 to 260: set exactly when a
position is held and trailing is enabled, else it stays 0. -/
def trailingStopPrice (buy_price : ℚ) (use_trailing : Bool) (highsTail : List ℚ) : ℚ :=
  if buy_price > 0 ∧ use_trailing then recentHigh buy_price highsTail * (9/10) else 0

/-- Details appended by the stop rules, in source order. -/
def vetoDetails (last : Row) (buy_price stop_loss_pct : ℚ) (use_trailing : Bool)
    (highsTail : List ℚ) : List (String × String) :=
  if buy_price > 0 then
    (if last.close ≤ user_stop_price buy_price stop_loss_pct then
       [("[強制停損] 觸及虧損", "請執行紀律。")] else [])
    ++ (if use_trailing ∧ last.close < recentHigh buy_price highsTail * (9/10) then
          [("[停利] 觸發移動停利", "回檔10%賣出。")] else [])
  else []

/-- The body of analyze_logic once the dataframe is long enough: everything
the source reads from the dataframe is the last row, the fifth row from the
end, the length, and the highs of the trailing min(60, n) rows. -/
def analyzeCore (last prev5 : Row) (highsTail : List ℚ) (buy_price stop_loss_pct : ℚ)
    (strategy_mode : String) (use_trailing : Bool) : Report :=
  { score := min 100 (max 0 (stoppedScore (branchScore last prev5 strategy_mode) last
               buy_price stop_loss_pct use_trailing highsTail)),
    action := branchAction strategy_mode last,
    details := branchDetails last prev5 strategy_mode
               ++ vetoDetails last buy_price stop_loss_pct use_trailing highsTail,
    atr_stop_price := last.close - 2 * last.atr,
    trailing_stop_price := trailingStopPrice buy_price use_trailing highsTail,
    obv_trend := obvTrendLabel last prev5,
    price_pos := last.price_pos }

/-- analyze_logic (lines 166 to 266).  The info argument of the source is
never read by the function body and is kept for signature fidelity.  The
None dataframe case of line 168 is the empty list; the final score clamp of
line 265 is inside analyzeCore. -/
def analyze_logic (df : List Row) (info : Option Info) (buy_price stop_loss_pct : ℚ)
    (strategy_mode : String) (use_trailing : Bool) : Report :=
  if df.length < 5 then insufficientReport
  else
    analyzeCore (rowAt df (df.length - 1)) (rowAt df (df.length - 5))
      ((df.drop (df.length - min 60 df.length)).map Row.high)
      buy_price stop_loss_pct strategy_mode use_trailing

/-! ## Helper lemmas -/

theorem le_foldl_max (a : ℚ) (xs : List ℚ) : a ≤ xs.foldl max a := by
  induction xs generalizing a with
  | nil => exact le_refl a
  | cons y ys ih => exact le_trans (le_max_left a y) (ih (max a y))

theorem mem_le_foldl_max (x a : ℚ) (xs : List ℚ) (hx : x ∈ xs) : x ≤ xs.foldl max a := by
  induction xs generalizing a with
  | nil => cases hx
  | cons y ys ih =>
    rcases List.mem_cons.1 hx with h | h
    · subst h
      exact le_trans (le_max_right a x) (le_foldl_max (max a x) ys)
    · exact ih (max a y) h

theorem le_maxListQ (x : ℚ) (xs : List ℚ) (hx : x ∈ xs) : x ≤ maxListQ xs := by
  match xs with
  | [] => cases hx
  | y :: ys =>
    show x ≤ ys.foldl max y
    rcases List.mem_cons.1 hx with h | h
    · subst h
      exact le_foldl_max x ys
    · exact mem_le_foldl_max x y ys h

theorem foldl_min_le (a : ℚ) (xs : List ℚ) : xs.foldl min a ≤ a := by
  induction xs generalizing a with
  | nil => exact le_refl a
  | cons y ys ih => exact le_trans (ih (min a y)) (min_le_left a y)

theorem foldl_min_le_mem (x a : ℚ) (xs : List ℚ) (hx : x ∈ xs) : xs.foldl min a ≤ x := by
  induction xs generalizing a with
  | nil => cases hx
  | cons y ys ih =>
    rcases List.mem_cons.1 hx with h | h
    · subst h
      exact le_trans (foldl_min_le (min a x) ys) (min_le_right a x)
    · exact ih (min a y) h

theorem minListQ_le (x : ℚ) (xs : List ℚ) (hx : x ∈ xs) : minListQ xs ≤ x := by
  match xs with
  | [] => cases hx
  | y :: ys =>
    show ys.foldl min y ≤ x
    rcases List.mem_cons.1 hx with h | h
    · subst h
      exact foldl_min_le x ys
    · exact foldl_min_le_mem x y ys h

theorem getLast?_take_eq (l : List Bar) (i : ℕ) (h : i < l.length) :
    (l.take (i+1)).getLast? = l[i]? := by
  rw [List.getLast?_eq_getElem?]
  simp [List.length_take, Nat.min_eq_left (Nat.succ_le_of_lt h)]

theorem mem_lastWindow_of_getLast? (w : ℕ) (hw : 0 < w) (p : List Bar) (b : Bar)
    (hb : p.getLast? = some b) : b ∈ lastWindow w p := by
  have hne : p ≠ [] := by
    intro he
    rw [he] at hb
    cases hb
  have hlen : 0 < p.length := List.length_pos.2 hne
  have hb2 : p[p.length - 1]? = some b := by
    rw [← List.getLast?_eq_getElem?]
    exact hb
  have hk : p.length - w + (p.length - 1 - (p.length - w)) = p.length - 1 := by omega
  apply List.getElem?_mem (n := p.length - 1 - (p.length - w))
  unfold lastWindow
  rw [List.getElem?_drop, hk]
  exact hb2

/-! ## Claim C2: causality of the indicator layer -/

/-- C2: every derived indicator value at index i (MA20, MA60, Bias, K, RSI,
ATR, OBV, MFI, rolling high and low, Price_Pos) is a function of the bars at
indices 0 to i only: any two bar series that agree on that prefix give the
same value at i, so appending, mutating, or removing later bars cannot
change it. -/
theorem C2_indicators_causal (l l2 : List Bar) (i : ℕ)
    (h : l.take (i+1) = l2.take (i+1)) :
    MA20 l i = MA20 l2 i ∧ MA60 l i = MA60 l2 i ∧ Bias l i = Bias l2 i ∧
    K l i = K l2 i ∧ RSI l i = RSI l2 i ∧ ATR l i = ATR l2 i ∧
    OBV l i = OBV l2 i ∧ MFI l i = MFI l2 i ∧ High2Y l i = High2Y l2 i ∧
    Low2Y l i = Low2Y l2 i ∧ Price_Pos l i = Price_Pos l2 i := by
  unfold MA20 MA60 Bias K RSI ATR OBV MFI High2Y Low2Y Price_Pos
  rw [h]
  exact ⟨rfl, rfl, rfl, rfl, rfl, rfl, rfl, rfl, rfl, rfl, rfl⟩

def wBarA : Bar := ⟨3, 1, 2, 10⟩

def wBarB : Bar := ⟨5, 2, 4, 20⟩

/-- Witness for C2: two concrete series agreeing on the first bar give the
same indicator values at index 0. -/
theorem C2_indicators_causal_witness :
    MA20 [wBarA] 0 = MA20 [wBarA, wBarB] 0 ∧ MA60 [wBarA] 0 = MA60 [wBarA, wBarB] 0 ∧
    Bias [wBarA] 0 = Bias [wBarA, wBarB] 0 ∧ K [wBarA] 0 = K [wBarA, wBarB] 0 ∧
    RSI [wBarA] 0 = RSI [wBarA, wBarB] 0 ∧ ATR [wBarA] 0 = ATR [wBarA, wBarB] 0 ∧
    OBV [wBarA] 0 = OBV [wBarA, wBarB] 0 ∧ MFI [wBarA] 0 = MFI [wBarA, wBarB] 0 ∧
    High2Y [wBarA] 0 = High2Y [wBarA, wBarB] 0 ∧ Low2Y [wBarA] 0 = Low2Y [wBarA, wBarB] 0 ∧
    Price_Pos [wBarA] 0 = Price_Pos [wBarA, wBarB] 0 :=
  C2_indicators_causal [wBarA] [wBarA, wBarB] 0 rfl

theorem pricePosLast_of_getLast (p : List Bar) (b : Bar) (hb : p.getLast? = some b) :
    pricePosLast p =
      if hi2yLast p - lo2yLast p = 0 then some (1/2)
      else some ((b.close - lo2yLast p) / (hi2yLast p - lo2yLast p)) := by
  unfold pricePosLast
  rw [hb]

/-! ## Claim C5: zero denominators in the indicator layer -/

/-- C5 (amended): at an index where the rolling window high equals the
rolling window low, the Price_Pos statistic is not a propagated null but the
substituted finite default 0.5, by the np.where guard of line 111. -/
theorem C5_price_pos_default (l : List Bar) (i : ℕ) (hi : i < l.length)
    (hd : High2Y l i = Low2Y l i) : Price_Pos l i = some (1/2) := by
  have hb : l[i]? = some (l.get ⟨i, hi⟩) := by
    rw [List.getElem?_eq_getElem hi]
    rfl
  have hlast : (l.take (i+1)).getLast? = some (l.get ⟨i, hi⟩) := by
    rw [getLast?_take_eq l i hi]
    exact hb
  have hzero : hi2yLast (l.take (i+1)) - lo2yLast (l.take (i+1)) = 0 := by
    have h2 : hi2yLast (l.take (i+1)) = lo2yLast (l.take (i+1)) := hd
    rw [h2, sub_self]
  show pricePosLast (l.take (i+1)) = some (1/2)
  rw [pricePosLast_of_getLast (l.take (i+1)) (l.get ⟨i, hi⟩) hlast, if_pos hzero]

def c5Bar : Bar := ⟨5, 5, 5, 1⟩

/-- Counterexample for C5 as stated: on a one bar series whose window high
equals its window low, the Price_Pos denominator is zero, yet the value is
the defined substituted default 0.5, not a propagated null. -/
theorem C5_counterexample :
    High2Y [c5Bar] 0 - Low2Y [c5Bar] 0 = 0 ∧
    Price_Pos [c5Bar] 0 ≠ none ∧ Price_Pos [c5Bar] 0 = some (1/2) := by
  with_unfolding_all decide

def c5BarW : Bar := ⟨7, 7, 7, 2⟩

/-- Witness for the amended C5 at a concrete degenerate series. -/
theorem C5_witness :
    0 < ([c5BarW] : List Bar).length ∧ High2Y [c5BarW] 0 = Low2Y [c5BarW] 0 ∧
    Price_Pos [c5BarW] 0 = some (1/2) :=
  ⟨by decide, by with_unfolding_all decide,
   C5_price_pos_default [c5BarW] 0 (by decide) (by with_unfolding_all decide)⟩

/-! ## Claim C10: bounds on Price_Pos -/

/-- C10: for bars whose close lies between their low and high, every
Price_Pos value is defined and lies in the interval from 0 to 1; when the
rolling 500 bar high equals the rolling 500 bar low the value is the
substituted 0.5, and the rolling window includes the current bar, so the
current close always lies between the window low and the window high. -/
theorem C10_price_pos_bounded (l : List Bar)
    (hsane : ∀ b ∈ l, b.low ≤ b.close ∧ b.close ≤ b.high)
    (i : ℕ) (hi : i < l.length) :
    (Price_Pos l i).isSome = true ∧
    (High2Y l i = Low2Y l i → Price_Pos l i = some (1/2)) ∧
    Low2Y l i ≤ (l.getD i default).close ∧ (l.getD i default).close ≤ High2Y l i ∧
    0 ≤ (Price_Pos l i).getD 0 ∧ (Price_Pos l i).getD 0 ≤ 1 := by
  set b : Bar := l.get ⟨i, hi⟩ with hbdef
  have hb : l[i]? = some b := by
    rw [List.getElem?_eq_getElem hi]
    rfl
  have hgetD : l.getD i default = b := by
    rw [List.getD_eq_getElem?_getD, hb]
    rfl
  have hlast : (l.take (i+1)).getLast? = some b := by
    rw [getLast?_take_eq l i hi]
    exact hb
  have hmem : b ∈ lastWindow 500 (l.take (i+1)) :=
    mem_lastWindow_of_getLast? 500 (by norm_num) (l.take (i+1)) b hlast
  have hsb : b.low ≤ b.close ∧ b.close ≤ b.high :=
    hsane b (List.getElem?_mem hb)
  have hmemh : b.high ∈ (lastWindow 500 (l.take (i+1))).map Bar.high :=
    List.mem_map_of_mem Bar.high hmem
  have hmeml : b.low ∈ (lastWindow 500 (l.take (i+1))).map Bar.low :=
    List.mem_map_of_mem Bar.low hmem
  have hhi0 : b.high ≤ maxListQ ((lastWindow 500 (l.take (i+1))).map Bar.high) :=
    le_maxListQ b.high _ hmemh
  have hlo0 : minListQ ((lastWindow 500 (l.take (i+1))).map Bar.low) ≤ b.low :=
    minListQ_le b.low _ hmeml
  have hhi : b.high ≤ High2Y l i := hhi0
  have hlo : Low2Y l i ≤ b.low := hlo0
  have hclo : Low2Y l i ≤ b.close := le_trans hlo hsb.1
  have hchi : b.close ≤ High2Y l i := le_trans hsb.2 hhi
  have hcase : Price_Pos l i =
      (if hi2yLast (l.take (i+1)) - lo2yLast (l.take (i+1)) = 0 then some (1/2)
       else some ((b.close - lo2yLast (l.take (i+1))) / (hi2yLast (l.take (i+1)) - lo2yLast (l.take (i+1))))) :=
    pricePosLast_of_getLast (l.take (i+1)) b hlast
  by_cases hz : hi2yLast (l.take (i+1)) - lo2yLast (l.take (i+1)) = 0
  · rw [if_pos hz] at hcase
    refine ⟨by rw [hcase]; rfl, fun _ => hcase, hgetD ▸ hclo, hgetD ▸ hchi, ?_, ?_⟩
    · rw [hcase]
      norm_num
    · rw [hcase]
      norm_num
  · rw [if_neg hz] at hcase
    have hdpos : 0 < hi2yLast (l.take (i+1)) - lo2yLast (l.take (i+1)) := by
      have : (0:ℚ) ≤ hi2yLast (l.take (i+1)) - lo2yLast (l.take (i+1)) :=
        sub_nonneg.2 (le_trans hclo hchi)
      exact lt_of_le_of_ne this (Ne.symm hz)
    refine ⟨by rw [hcase]; rfl,
      fun he => absurd (show hi2yLast (l.take (i+1)) - lo2yLast (l.take (i+1)) = 0 by
        have h2 : hi2yLast (l.take (i+1)) = lo2yLast (l.take (i+1)) := he
        rw [h2, sub_self]) hz,
      hgetD ▸ hclo, hgetD ▸ hchi, ?_, ?_⟩
    · rw [hcase]
      exact div_nonneg (sub_nonneg.2 hclo) (le_of_lt hdpos)
    · rw [hcase]
      show (b.close - lo2yLast (l.take (i+1))) / (hi2yLast (l.take (i+1)) - lo2yLast (l.take (i+1))) ≤ 1
      rw [div_le_one hdpos]
      exact sub_le_sub_right hchi _

def c10Bar : Bar := ⟨11, 9, 10, 3⟩

/-- Witness for C10 on a concrete one bar series. -/
theorem C10_price_pos_bounded_witness :
    (Price_Pos [c10Bar] 0).isSome = true ∧
    (High2Y [c10Bar] 0 = Low2Y [c10Bar] 0 → Price_Pos [c10Bar] 0 = some (1/2)) ∧
    Low2Y [c10Bar] 0 ≤ (([c10Bar] : List Bar).getD 0 default).close ∧
    (([c10Bar] : List Bar).getD 0 default).close ≤ High2Y [c10Bar] 0 ∧
    0 ≤ (Price_Pos [c10Bar] 0).getD 0 ∧ (Price_Pos [c10Bar] 0).getD 0 ≤ 1 :=
  C10_price_pos_bounded [c10Bar] (by with_unfolding_all decide) 0 (by decide)

/-! ## Field lemmas for analyzeCore -/

theorem analyzeCore_score_eq (last prev5 : Row) (highsTail : List ℚ) (bp slp : ℚ)
    (mode : String) (tr : Bool) :
    (analyzeCore last prev5 highsTail bp slp mode tr).score
      = min 100 (max 0 (stoppedScore (branchScore last prev5 mode) last bp slp tr highsTail)) := rfl

theorem analyzeCore_action_eq (last prev5 : Row) (highsTail : List ℚ) (bp slp : ℚ)
    (mode : String) (tr : Bool) :
    (analyzeCore last prev5 highsTail bp slp mode tr).action = branchAction mode last := rfl

theorem analyzeCore_atr_stop_eq (last prev5 : Row) (highsTail : List ℚ) (bp slp : ℚ)
    (mode : String) (tr : Bool) :
    (analyzeCore last prev5 highsTail bp slp mode tr).atr_stop_price
      = last.close - 2 * last.atr := rfl

/-! ## Claim C1: the user stop veto and the score range -/

/-- C1 (amended): whenever a position is held and the current close is at or
under the user stop price, analyze_logic returns the score 100, the maximum
and dangerous end of the declared 0 to 100 range, regardless of every other
sub-score contribution.  The claim as stated says the minimum of the range;
the source assigns 100 at line 250 and clamps to 0..100 at line 265. -/
theorem C1_user_stop_forces_max (df : List Row) (info : Option Info)
    (buy_price stop_loss_pct : ℚ) (strategy_mode : String) (use_trailing : Bool)
    (hlen : ¬ df.length < 5) (hbp : buy_price > 0)
    (hstop : (rowAt df (df.length - 1)).close ≤ user_stop_price buy_price stop_loss_pct) :
    (analyze_logic df info buy_price stop_loss_pct strategy_mode use_trailing).score = 100 := by
  unfold analyze_logic
  rw [if_neg hlen, analyzeCore_score_eq]
  have hs : stoppedScore (branchScore (rowAt df (df.length - 1)) (rowAt df (df.length - 5)) strategy_mode)
      (rowAt df (df.length - 1)) buy_price stop_loss_pct use_trailing
      ((df.drop (df.length - min 60 df.length)).map Row.high) = 100 := by
    unfold stoppedScore
    rw [if_pos hbp]
    simp only [if_pos hstop, ite_self]
  rw [hs]
  omega

def c1Row : Row := ⟨85, 100, 80, 80, 0, 50, 50, 2, 0, 50, 1/2⟩

def c1Frame : List Row := [c1Row, c1Row, c1Row, c1Row, c1Row]

/-- Counterexample for C1 as stated: with the user stop breached, the final
score is 100, not the minimum 0 of the declared 0 to 100 range of
line 265. -/
theorem C1_counterexample :
    (rowAt c1Frame 4).close ≤ user_stop_price 100 10 ∧
    (analyze_logic c1Frame none 100 10 "Trend" false).score = 100 ∧
    (analyze_logic c1Frame none 100 10 "Trend" false).score ≠ 0 := by
  with_unfolding_all decide

/-- Witness for the amended C1 at a concrete held position. -/
theorem C1_witness :
    ¬ (c1Frame.length < 5) ∧ (100:ℚ) > 0 ∧
    (rowAt c1Frame (c1Frame.length - 1)).close ≤ user_stop_price 100 10 ∧
    (analyze_logic c1Frame none 100 10 "Trend" true).score = 100 :=
  ⟨by decide, by norm_num, by with_unfolding_all decide,
   C1_user_stop_forces_max c1Frame none 100 10 "Trend" true (by decide) (by norm_num)
     (by with_unfolding_all decide)⟩

/-! ## Claim C3: the protective stop price -/

/-- Modelled from the spec: the protective stop as the spec words it, the
rolling high over the stop window shifted by one bar so that it excludes the
current bar, minus k times the average true range.  Present only for
comparison with the stop the source actually computes. -/
def specProtectiveStop (w : ℕ) (k : ℚ) (l : List Bar) (i : ℕ) : ℚ :=
  maxListQ (((l.take i).drop (i - w)).map Bar.high) - k * ATR l i

/-- C3 (amended): the protective stop reported by analyze_logic is the
current close minus 2.0 times the current ATR (line 190); no rolling high
and no one bar shift is involved.  For a flat close series at 100 with
ATR 2 the value is still 96, as in the spec example. -/
theorem C3_atr_stop_formula (df : List Row) (info : Option Info)
    (buy_price stop_loss_pct : ℚ) (strategy_mode : String) (use_trailing : Bool)
    (hlen : ¬ df.length < 5) :
    (analyze_logic df info buy_price stop_loss_pct strategy_mode use_trailing).atr_stop_price
      = (rowAt df (df.length - 1)).close - 2 * (rowAt df (df.length - 1)).atr := by
  unfold analyze_logic
  rw [if_neg hlen, analyzeCore_atr_stop_eq]

/-- Bars of the flat example series: constant close 100 with an alternating
intraday range keeping every true range equal to 2, hence ATR exactly 2. -/
def fBar (i : ℕ) : Bar := if i % 2 = 0 then ⟨101, 99, 100, 1000⟩ else ⟨203/2, 199/2, 100, 1000⟩

def fbars : List Bar := (List.range 64).map fBar

/-- Bars of the counterexample series: the flat series with the last session
dropping to 90. -/
def cbars : List Bar := (List.range 64).map (fun i => if i = 63 then ⟨101, 89, 90, 1000⟩ else fBar i)

set_option maxRecDepth 4000000 in
/-- Counterexample for C3 as stated: on a concrete series with sufficient
history whose last close sits under the rolling high, the reported stop
differs from the spec formula rolling-high(20, shifted) minus 2 ATR. -/
theorem C3_counterexample :
    ¬ ((computeFrame cbars).length < 5) ∧
    (analyze_logic (computeFrame cbars) none 0 10 "Trend" false).atr_stop_price
      ≠ specProtectiveStop 20 2 cbars 63 := by
  with_unfolding_all decide

set_option maxRecDepth 4000000 in
/-- Witness for the amended C3: on the flat example series the reported stop
equals close minus two ATR and evaluates to 96. -/
theorem C3_witness :
    ¬ ((computeFrame fbars).length < 5) ∧
    (analyze_logic (computeFrame fbars) none 0 10 "Trend" false).atr_stop_price
      = (rowAt (computeFrame fbars) ((computeFrame fbars).length - 1)).close
        - 2 * (rowAt (computeFrame fbars) ((computeFrame fbars).length - 1)).atr ∧
    (analyze_logic (computeFrame fbars) none 0 10 "Trend" false).atr_stop_price = 96 :=
  ⟨by with_unfolding_all decide,
   C3_atr_stop_formula (computeFrame fbars) none 0 10 "Trend" false (by with_unfolding_all decide),
   by with_unfolding_all decide⟩

/-! ## Claim C4: the stop breach patterns -/

/-- C4 (amended): analyze_logic reads the dataframe only through its length,
its last row, its fifth row from the end, and the highs of the trailing
min(60, n) rows; two evaluations identical except for the close or the
other unread fields of the second to last session, the stop breach pattern
included, return identical reports, so a single session breach and a two
consecutive session breach carry the same penalty.  The source has no two
session confirmation rule: the line 221 check compares the current close
with the stop derived from the same row. -/
theorem C4_analyze_reads_only (df df2 : List Row) (info : Option Info)
    (buy_price stop_loss_pct : ℚ) (strategy_mode : String) (use_trailing : Bool)
    (hlen : df.length = df2.length)
    (hlast : rowAt df (df.length - 1) = rowAt df2 (df2.length - 1))
    (hprev : rowAt df (df.length - 5) = rowAt df2 (df2.length - 5))
    (hhighs : (df.drop (df.length - min 60 df.length)).map Row.high
            = (df2.drop (df2.length - min 60 df2.length)).map Row.high) :
    analyze_logic df info buy_price stop_loss_pct strategy_mode use_trailing
      = analyze_logic df2 info buy_price stop_loss_pct strategy_mode use_trailing := by
  unfold analyze_logic
  rw [hlast, hprev, hhighs, hlen]

def c4Fill : Row := ⟨100, 101, 99, 98, 0, 50, 50, 2, 0, 50, 1/2⟩

/-- Prior session that closes above its volatility band stop. -/
def c4Above : Row := ⟨95, 101, 99, 98, 0, 50, 50, 2, 0, 50, 1/2⟩

/-- Prior session that closes below its volatility band stop. -/
def c4Below : Row := ⟨85, 101, 99, 98, 0, 50, 50, -5, 0, 50, 1/2⟩

/-- Latest session closing below its volatility band stop. -/
def c4Last : Row := ⟨85, 101, 99, 98, 0, 50, 50, -5, 0, 50, 1/2⟩

def c4FrameA : List Row := [c4Fill, c4Fill, c4Fill, c4Above, c4Last]

def c4FrameB : List Row := [c4Fill, c4Fill, c4Fill, c4Below, c4Last]

/-- Counterexample for C4 as stated: two Trend evaluations identical except
for the stop breach pattern of the prior session, one breaching only in the
latest session, the other in both; the scores are equal, so the single
session breach penalty is not strictly smaller. -/
theorem C4_counterexample :
    c4Above.close > c4Above.close - 2 * c4Above.atr ∧
    c4Below.close < c4Below.close - 2 * c4Below.atr ∧
    c4Last.close < c4Last.close - 2 * c4Last.atr ∧
    (analyze_logic c4FrameA none 0 10 "Trend" false).score
      = (analyze_logic c4FrameB none 0 10 "Trend" false).score := by
  with_unfolding_all decide

/-- Witness for the amended C4 at two concrete frames differing only in the
second to last row. -/
theorem C4_witness :
    c4FrameA.length = c4FrameB.length ∧
    rowAt c4FrameA (c4FrameA.length - 1) = rowAt c4FrameB (c4FrameB.length - 1) ∧
    rowAt c4FrameA (c4FrameA.length - 5) = rowAt c4FrameB (c4FrameB.length - 5) ∧
    (c4FrameA.drop (c4FrameA.length - min 60 c4FrameA.length)).map Row.high
      = (c4FrameB.drop (c4FrameB.length - min 60 c4FrameB.length)).map Row.high ∧
    analyze_logic c4FrameA none 100 10 "Trend" true
      = analyze_logic c4FrameB none 100 10 "Trend" true :=
  ⟨rfl, by with_unfolding_all decide, by with_unfolding_all decide, by with_unfolding_all decide,
   C4_analyze_reads_only c4FrameA c4FrameB none 100 10 "Trend" true rfl
     (by with_unfolding_all decide) (by with_unfolding_all decide) (by with_unfolding_all decide)⟩

/-! ## Claim C6: order of the classifier steps -/

/-- C6 (amended): detect_industry_type is pure and deterministic, but its
first test is the ETF and Dividend marker check on the short name
(line 150); the cyclical keyword match on the sector and industry text and
then on the business summary runs only afterwards, and there is no override
list.  A nonempty short name containing a marker therefore classifies as
ETF no matter which cyclical keywords the other metadata contains. -/
theorem C6_etf_marker_first (i : Info) (hname : i.shortName.isEmpty = false)
    (hmark : strContains i.shortName "ETF" = true ∨ strContains i.shortName "Dividend" = true) :
    detect_industry_type (some i) = some "ETF" := by
  have heq : detect_industry_type (some i) =
      (if (!(i.shortName.isEmpty) && (strContains i.shortName "ETF" || strContains i.shortName "Dividend")) = true then some "ETF"
       else match firstKeyword (lowerStr (i.sector ++ " " ++ i.industry)) with
            | some kw => some kw
            | none => firstKeyword (lowerStr i.longBusinessSummary)) := rfl
  have hcond : (!(i.shortName.isEmpty) && (strContains i.shortName "ETF" || strContains i.shortName "Dividend")) = true := by
    rw [hname]
    rcases hmark with h | h <;> simp [h]
  rw [heq, if_pos hcond]

def c6Info : Info := ⟨"Technology", "Semiconductors", "", "DRAM ETF"⟩

/-- Counterexample for C6 as stated: metadata whose short name carries an
ETF marker and whose industry text carries a cyclical keyword classifies as
ETF, not as the cyclical keyword. -/
theorem C6_counterexample :
    strContains (lowerStr (c6Info.sector ++ " " ++ c6Info.industry)) (lowerStr "Semiconductors") = true ∧
    detect_industry_type (some c6Info) = some "ETF" ∧
    detect_industry_type (some c6Info) ≠ some "Semiconductors" ∧
    detect_industry_type (some c6Info) ≠ some "DRAM" := by
  decide

def c6wInfo : Info := ⟨"", "", "", "Global Dividend"⟩

/-- Witness for the amended C6 at a concrete dividend fund name. -/
theorem C6_witness :
    c6wInfo.shortName.isEmpty = false ∧
    (strContains c6wInfo.shortName "ETF" = true ∨ strContains c6wInfo.shortName "Dividend" = true) ∧
    detect_industry_type (some c6wInfo) = some "ETF" :=
  ⟨by decide, Or.inr (by decide), C6_etf_marker_first c6wInfo (by decide) (Or.inr (by decide))⟩

/-! ## Claim C7: insufficient history -/

/-- C7 (amended): a fetch shorter than 60 bars yields the distinguished
Data_Too_Short outcome with no dataframe, and a dataframe shorter than 5
rows yields the distinguished action label 資料不足; the latter report
however carries the numeric score 50, the same neutral baseline a genuine
mid-range evaluation produces, not a distinguished non-score. -/
theorem C7_insufficient_history (bars : List Bar) (df : List Row) (info : Option Info)
    (buy_price stop_loss_pct : ℚ) (strategy_mode : String) (use_trailing : Bool) :
    (bars ≠ [] → bars.length < 60 → get_stock_data_model bars = FetchOutcome.dataTooShort) ∧
    (df.length < 5 →
      (analyze_logic df info buy_price stop_loss_pct strategy_mode use_trailing).action = "資料不足" ∧
      (analyze_logic df info buy_price stop_loss_pct strategy_mode use_trailing).score = 50) := by
  constructor
  · intro hne hlt
    unfold get_stock_data_model
    rw [if_neg (by simp only [List.isEmpty_iff]; exact hne), if_pos hlt]
  · intro h5
    unfold analyze_logic
    rw [if_pos h5]
    exact ⟨rfl, rfl⟩

def c7Bar : Bar := ⟨2, 1, 1, 5⟩

def c7NeutralRow : Row := ⟨100, 101, 99, 98, 0, 50, 50, 2, 0, 50, 1/2⟩

def c7NeutralFrame : List Row :=
  [c7NeutralRow, c7NeutralRow, c7NeutralRow, c7NeutralRow, c7NeutralRow]

/-- Counterexample for C7 as stated: the insufficient data report carries
the numeric score 50, identical to the score of a genuine neutral
evaluation, so a neutral-looking numeric score is produced. -/
theorem C7_counterexample :
    (analyze_logic [] none 0 10 "Trend" false).score = 50 ∧
    (analyze_logic [] none 0 10 "Trend" false).action = "資料不足" ∧
    (analyze_logic c7NeutralFrame none 0 10 "Trend" false).score = 50 ∧
    (analyze_logic c7NeutralFrame none 0 10 "Trend" false).action = "觀望 / 持有" := by
  with_unfolding_all decide

/-- Witness for the amended C7 at a concrete short fetch and an empty
dataframe. -/
theorem C7_witness :
    get_stock_data_model [c7Bar] = FetchOutcome.dataTooShort ∧
    (analyze_logic [] none 0 10 "Trend" false).action = "資料不足" ∧
    (analyze_logic [] none 0 10 "Trend" false).score = 50 :=
  ⟨(C7_insufficient_history [c7Bar] [] none 0 10 "Trend" false).1 (by decide) (by decide),
   ((C7_insufficient_history [c7Bar] [] none 0 10 "Trend" false).2 (by decide)).1,
   ((C7_insufficient_history [c7Bar] [] none 0 10 "Trend" false).2 (by decide)).2⟩

/-! ## Claim C8: the Cycle branch overwrites -/

/-- C8: in Cycle mode with no position held, the final score equals the
price position tier (10 under 0.2, 70 above 0.8, else 40) minus 10 exactly
when the stochastic K value is under 20, clamped to 0..100; the earlier
bias and OBV divergence adjustments have no effect, because the tier
assignments of lines 231, 235 and 238 overwrite the accumulated score. -/
theorem C8_cycle_overwrites (df : List Row) (info : Option Info) (stop_loss_pct : ℚ)
    (use_trailing : Bool) (hlen : ¬ df.length < 5) :
    (analyze_logic df info 0 stop_loss_pct "Cycle" use_trailing).score =
      (if (rowAt df (df.length - 1)).price_pos < 1/5 then 10
       else if (rowAt df (df.length - 1)).price_pos > 4/5 then 70 else 40)
      - (if (rowAt df (df.length - 1)).k < 20 then 10 else 0) := by
  unfold analyze_logic
  rw [if_neg hlen, analyzeCore_score_eq]
  have hs : stoppedScore (branchScore (rowAt df (df.length - 1)) (rowAt df (df.length - 5)) "Cycle")
      (rowAt df (df.length - 1)) 0 stop_loss_pct use_trailing
      ((df.drop (df.length - min 60 df.length)).map Row.high)
      = branchScore (rowAt df (df.length - 1)) (rowAt df (df.length - 5)) "Cycle" := by
    unfold stoppedScore
    rw [if_neg (by norm_num)]
  rw [hs]
  have hb : branchScore (rowAt df (df.length - 1)) (rowAt df (df.length - 5)) "Cycle"
      = cycleScore (rowAt df (df.length - 1)) := by
    unfold branchScore
    rw [if_neg (by decide), if_pos rfl]
  rw [hb]
  unfold cycleScore
  by_cases h1 : (rowAt df (df.length - 1)).price_pos < 1/5
  · by_cases h3 : (rowAt df (df.length - 1)).k < 20
    · simp only [if_pos h1, if_pos h3]
      omega
    · simp only [if_pos h1, if_neg h3]
      omega
  · by_cases h2 : (rowAt df (df.length - 1)).price_pos > 4/5
    · by_cases h3 : (rowAt df (df.length - 1)).k < 20
      · simp only [if_neg h1, if_pos h2, if_pos h3]
        omega
      · simp only [if_neg h1, if_pos h2, if_neg h3]
        omega
    · by_cases h3 : (rowAt df (df.length - 1)).k < 20
      · simp only [if_neg h1, if_neg h2, if_pos h3]
        omega
      · simp only [if_neg h1, if_neg h2, if_neg h3]
        omega

def c8Prev : Row := ⟨100, 101, 99, 98, 20, 10, 50, 2, 0, 50, 1/10⟩

def c8Row : Row := ⟨100, 101, 99, 98, 20, 10, 50, 2, 5, 50, 1/10⟩

def c8Frame : List Row := [c8Prev, c8Row, c8Row, c8Row, c8Row]

/-- Witness for C8 at a concrete Cycle frame with a low tier and an oversold
oscillator; the bias of 20 and the OBV divergence of the frame would move a
Trend score but leave the Cycle score untouched. -/
theorem C8_witness :
    ¬ (c8Frame.length < 5) ∧
    (analyze_logic c8Frame none 0 10 "Cycle" false).score =
      (if (rowAt c8Frame (c8Frame.length - 1)).price_pos < 1/5 then 10
       else if (rowAt c8Frame (c8Frame.length - 1)).price_pos > 4/5 then 70 else 40)
      - (if (rowAt c8Frame (c8Frame.length - 1)).k < 20 then 10 else 0) :=
  ⟨by decide, C8_cycle_overwrites c8Frame none 10 false (by decide)⟩

/-! ## Claim C9: the Trend action label -/

/-- C9 (amended): for every dataframe of at least 5 rows, the action label
returned in Trend mode is the default 觀望 / 持有, also when the user stop
or the trailing stop veto forces the score to 100: only the Cycle branch
ever reassigns the label.  For shorter dataframes the early report of
line 170 carries the distinct label 資料不足 instead. -/
theorem C9_trend_action_default (df : List Row) (info : Option Info)
    (buy_price stop_loss_pct : ℚ) (use_trailing : Bool) (hlen : ¬ df.length < 5) :
    (analyze_logic df info buy_price stop_loss_pct "Trend" use_trailing).action = "觀望 / 持有" := by
  unfold analyze_logic
  rw [if_neg hlen, analyzeCore_action_eq]
  unfold branchAction
  rw [if_neg (by decide)]

def c9Row : Row := ⟨85, 100, 90, 95, -20, 10, 90, 2, 0, 90, 1/2⟩

def c9Frame : List Row := [c9Row, c9Row, c9Row, c9Row, c9Row]

/-- Counterexample for C9 as stated: on a dataframe shorter than 5 rows the
Trend mode call returns the label 資料不足, not the default. -/
theorem C9_counterexample :
    (analyze_logic [] none 100 10 "Trend" true).action ≠ "觀望 / 持有" ∧
    (analyze_logic [] none 100 10 "Trend" true).action = "資料不足" := by
  with_unfolding_all decide

/-- Witness for the amended C9 at a concrete frame on which the user stop
veto fires. -/
theorem C9_witness :
    ¬ (c9Frame.length < 5) ∧
    (rowAt c9Frame (c9Frame.length - 1)).close ≤ user_stop_price 100 10 ∧
    (analyze_logic c9Frame none 100 10 "Trend" true).action = "觀望 / 持有" :=
  ⟨by decide, by with_unfolding_all decide,
   C9_trend_action_default c9Frame none 100 10 true (by decide)⟩

end StockApp
